import Mathlib

/-!
Verification of the healing-agent remediation core of the helix-platform
repository (`aiops/healing-agent/src`): a shallow embedding, in Lean, of

* `classifiers/pattern_matcher.py`  (`PatternMatcher`, `RemediationAction`),
* `classifiers/ai_analyzer.py`      (`AIAnalyzer._parse_ai_response`, `analyze_alert`),
* `classifiers/hybrid_classifier.py` (`HybridClassifier.classify`, `should_auto_execute`),
* `remediators/k8s_remediator.py`   (`KubernetesRemediator.execute` and handlers),
* `main.py`                         (`process_alert`),

followed by theorems settling the stated properties of that code.

Modelling conventions, applied throughout:

* Python dicts of strings (alert labels / annotations) are association lists
  with `.get`-style lookup; Python dict keys are unique so first-match lookup
  is used.
* Python floats are modelled as `ℚ` (exact rationals).  The confidences the
  program compares (0.85, 0.3, 0.5, ...) are all short decimals, on which
  ℚ and IEEE binary comparison agree.
* JSON values (`json.loads` output) are the inductive `Json`, with numbers as
  `ℚ`; the parser below implements the `json.loads` grammar for the fragment
  without `NaN`/`Infinity` literals and with `\uXXXX` escapes mapped through
  `Char.ofNat` (no surrogate-pair combination).  Duplicate object keys follow
  Python dict semantics (last occurrence wins) via `Json.objGet`.
* Exceptions that the Python code can raise and does not itself catch are
  modelled as an explicit `raised` outcome; exceptions it catches are folded
  into the branch the handler takes, exactly as in the source.
* Wall-clock timestamps, logging, and the statistics counters that no claim
  mentions are omitted; they do not affect any value a claim observes.
* `str.lower()` / `str.strip()` are modelled on ASCII (the character sets the
  program's rule patterns and messages use).
-/

/-! ## Python-dict helpers (string-valued dicts: alert labels / annotations) -/

/-- `d.get(k, dflt)` on a string-valued Python dict. -/
def pyGetD (d : List (String × String)) (k : String) (dflt : String) : String :=
  match d.find? (fun kv => kv.1 == k) with
  | some kv => kv.2
  | none => dflt

/-- `d.get(k)` (default `None`) on a string-valued Python dict. -/
def pyGetOpt (d : List (String × String)) (k : String) : Option String :=
  (d.find? (fun kv => kv.1 == k)).map (fun kv => kv.2)

/-- ASCII model of `str.lower()` on a single character. -/
def asciiLower (c : Char) : Char :=
  if 'A' ≤ c ∧ c ≤ 'Z' then Char.ofNat (c.toNat + 32) else c

/-- ASCII model of `str.lower()`. -/
def strLower (s : String) : String :=
  String.mk (s.data.map asciiLower)

/-- The whitespace set of Python `str.strip()` (ASCII part). -/
def pyIsSpace (c : Char) : Bool :=
  c == ' ' || c == '\t' || c == '\n' || c == '\r' || c == '\x0b' || c == '\x0c'

/-- Model of Python `str.strip()` (no argument). -/
def pyStrip (s : String) : String :=
  String.mk (((s.data.dropWhile pyIsSpace).reverse.dropWhile pyIsSpace).reverse)

/-- Model of Python `s[:n]` (slice of the first `n` characters). -/
def strTake (n : Nat) (s : String) : String :=
  String.mk (s.data.take n)

/-- Model of Python `s[n:]` (drop the first `n` characters). -/
def strDrop (n : Nat) (s : String) : String :=
  String.mk (s.data.drop n)

/-! ## JSON values (the output of `json.loads`) -/

/-- A parsed JSON value.  Numbers are exact rationals (see header note). -/
inductive Json where
  | null : Json
  | bool (b : Bool) : Json
  | num (q : ℚ) : Json
  | str (s : String) : Json
  | arr (elems : List Json) : Json
  | obj (entries : List (String × Json)) : Json

/-- `d.get(k)` on a parsed JSON object: Python dicts keep the last of
duplicate keys, so the last binding wins. -/
def Json.objGet (entries : List (String × Json)) (k : String) : Option Json :=
  (entries.reverse.find? (fun kv => kv.1 == k)).map (fun kv => kv.2)

/-- `d.get(k, dflt)` on a parsed JSON object. -/
def Json.objGetD (entries : List (String × Json)) (k : String) (dflt : Json) : Json :=
  match Json.objGet entries k with
  | some v => v
  | none => dflt

/-- Python truthiness of a JSON-derived value (`if v:`). -/
def Json.truthy : Json → Bool
  | .null => false
  | .bool b => b
  | .num q => q ≠ 0
  | .str s => s ≠ ""
  | .arr l => !l.isEmpty
  | .obj l => !l.isEmpty

/-- Python `v == lit` for a string literal `lit`: only equal-valued strings
compare equal (no cross-type equality with a string). -/
def Json.eqStr : Json → String → Bool
  | .str t, s => t == s
  | _, _ => false

/-- Rendering of a JSON-derived value under Python `str()` / f-string
interpolation.  Strings render verbatim; the numeric/compound renderings are
coarse (exact-rational / bracket placeholders) — no claim observes them, and
no non-string value renders to one of the four action-type strings. -/
def Json.pyRender : Json → String
  | .null => "None"
  | .bool true => "True"
  | .bool false => "False"
  | .num q => toString q.num ++ (if q.den == 1 then "" else "/" ++ toString q.den)
  | .str s => s
  | .arr _ => "[...]"
  | .obj _ => "\x7b...\x7d"

/-- Python `float(s)` on a string: strip spaces, parse an optional sign and a
plain decimal (`digits`, `digits.digits`, `.digits`, `digits.`).  Exponents,
`inf`/`nan` and digit underscores are outside the modelled fragment.
`none` models a raised `ValueError`. -/
def pyFloatOfChars (cs : List Char) : Option ℚ :=
  let cs := (cs.dropWhile pyIsSpace).reverse.dropWhile pyIsSpace |>.reverse
  let (sign, cs) :=
    match cs with
    | '-' :: rest => ((-1 : Int), rest)
    | '+' :: rest => ((1 : Int), rest)
    | _ => ((1 : Int), cs)
  let intPart := cs.takeWhile Char.isDigit
  let rest := cs.dropWhile Char.isDigit
  let digitsVal : List Char → Nat :=
    fun ds => ds.foldl (fun n c => n * 10 + (c.toNat - '0'.toNat)) 0
  match rest with
  | [] =>
      if intPart.isEmpty then none
      else some (mkRat (sign * digitsVal intPart) 1)
  | '.' :: fracRest =>
      let fracPart := fracRest.takeWhile Char.isDigit
      if fracRest.dropWhile Char.isDigit ≠ [] then none
      else if intPart.isEmpty ∧ fracPart.isEmpty then none
      else
        some (mkRat (sign * (digitsVal intPart * 10 ^ fracPart.length + digitsVal fracPart))
          (10 ^ fracPart.length))
  | _ => none

/-- Python `float(v)` on a JSON-derived value: numbers and bools convert,
numeric strings parse, everything else raises (`none` models the raise,
a `TypeError`/`ValueError`). -/
def Json.pyFloat : Json → Option ℚ
  | .num q => some q
  | .bool true => some 1
  | .bool false => some 0
  | .str s => pyFloatOfChars s.data
  | _ => none

/-- Python `int + v` / `int - v` operand conversion: an int (or float, or
bool) participates in arithmetic; any other value raises `TypeError`
(`none`). -/
def Json.pyNum : Json → Option ℚ
  | .num q => some q
  | .bool true => some 1
  | .bool false => some 0
  | _ => none

/-- Python `int(s)` on a string: strip spaces, optional sign, decimal digits.
`none` models a raised `ValueError`. -/
def pyIntOfString (s : String) : Option Int :=
  let cs := (s.data.dropWhile pyIsSpace).reverse.dropWhile pyIsSpace |>.reverse
  let (sign, cs) :=
    match cs with
    | '-' :: rest => ((-1 : Int), rest)
    | '+' :: rest => ((1 : Int), rest)
    | _ => ((1 : Int), cs)
  if cs.isEmpty ∨ ¬ cs.all Char.isDigit then none
  else some (sign * ((cs.foldl (fun n c => n * 10 + (c.toNat - '0'.toNat)) 0 : Nat) : Int))

/-! ## A model of `json.loads` (used by `AIAnalyzer._parse_ai_response`) -/

/-- JSON inter-token whitespace (the exact set `json.loads` skips). -/
def jsonSkipWs (cs : List Char) : List Char :=
  cs.dropWhile (fun c => c == ' ' || c == '\t' || c == '\n' || c == '\r')

/-- Value of a digit run. -/
def digitsToNat (ds : List Char) : Nat :=
  ds.foldl (fun n c => n * 10 + (c.toNat - '0'.toNat)) 0

/-- Hex-digit value, for `\uXXXX` escapes. -/
def hexVal (c : Char) : Option Nat :=
  if '0' ≤ c ∧ c ≤ '9' then some (c.toNat - '0'.toNat)
  else if 'a' ≤ c ∧ c ≤ 'f' then some (c.toNat - 'a'.toNat + 10)
  else if 'A' ≤ c ∧ c ≤ 'F' then some (c.toNat - 'A'.toNat + 10)
  else none

/-- Body of a JSON string, after the opening quote: strict mode, so raw
control characters are rejected; the standard escapes are recognised. -/
def jsonParseStringBody (fuel : Nat) (cs : List Char) (acc : List Char) :
    Option (String × List Char) :=
  match fuel with
  | 0 => none
  | fuel + 1 =>
    match cs with
    | [] => none
    | '"' :: rest => some (String.mk acc.reverse, rest)
    | '\\' :: 'u' :: h1 :: h2 :: h3 :: h4 :: rest =>
        match hexVal h1, hexVal h2, hexVal h3, hexVal h4 with
        | some a, some b, some c, some d =>
            jsonParseStringBody fuel rest (Char.ofNat (((a * 16 + b) * 16 + c) * 16 + d) :: acc)
        | _, _, _, _ => none
    | '\\' :: e :: rest =>
        match e with
        | '"' => jsonParseStringBody fuel rest ('"' :: acc)
        | '\\' => jsonParseStringBody fuel rest ('\\' :: acc)
        | '/' => jsonParseStringBody fuel rest ('/' :: acc)
        | 'b' => jsonParseStringBody fuel rest ('\x08' :: acc)
        | 'f' => jsonParseStringBody fuel rest ('\x0c' :: acc)
        | 'n' => jsonParseStringBody fuel rest ('\n' :: acc)
        | 'r' => jsonParseStringBody fuel rest ('\r' :: acc)
        | 't' => jsonParseStringBody fuel rest ('\t' :: acc)
        | _ => none
    | c :: rest =>
        if c.toNat < 32 then none else jsonParseStringBody fuel rest (c :: acc)

/-- Optional exponent suffix of a JSON number; the mantissa arrives as a
numerator/denominator pair and the result is assembled with `mkRat`. -/
def jsonParseExp (num : Int) (den : Nat) (cs : List Char) : Option (ℚ × List Char) :=
  match cs with
  | 'e' :: r | 'E' :: r =>
      let (eneg, r2) : Bool × List Char :=
        match r with
        | '+' :: rr => (false, rr)
        | '-' :: rr => (true, rr)
        | _ => (false, r)
      let ed := r2.takeWhile Char.isDigit
      if ed.isEmpty then none
      else
        let e := digitsToNat ed
        let q := if eneg then mkRat num (den * 10 ^ e) else mkRat (num * 10 ^ e) den
        some (q, r2.dropWhile Char.isDigit)
  | _ => some (mkRat num den, cs)

/-- A JSON number (strict grammar: no leading zeros, no bare `.`). -/
def jsonParseNumber (cs : List Char) : Option (ℚ × List Char) :=
  let (sign, cs1) : Int × List Char :=
    match cs with
    | '-' :: r => (-1, r)
    | _ => (1, cs)
  let ipart := cs1.takeWhile Char.isDigit
  let rest1 := cs1.dropWhile Char.isDigit
  if ipart.isEmpty then none
  else if 1 < ipart.length ∧ ipart.headD '1' == '0' then none
  else
    match rest1 with
    | '.' :: fr =>
        let fd := fr.takeWhile Char.isDigit
        if fd.isEmpty then none
        else
          jsonParseExp (sign * (digitsToNat ipart * 10 ^ fd.length + digitsToNat fd))
            (10 ^ fd.length) (fr.dropWhile Char.isDigit)
    | _ => jsonParseExp (sign * digitsToNat ipart) 1 rest1

mutual

/-- One JSON value, leading whitespace allowed. -/
def jsonParseValue (fuel : Nat) (cs : List Char) : Option (Json × List Char) :=
  match fuel with
  | 0 => none
  | fuel + 1 =>
    match jsonSkipWs cs with
    | '\x7b' :: rest => jsonParseObjItems fuel (jsonSkipWs rest) [] true
    | '[' :: rest => jsonParseArrItems fuel (jsonSkipWs rest) [] true
    | '"' :: rest =>
        (jsonParseStringBody (rest.length + 1) rest []).map (fun p => (Json.str p.1, p.2))
    | 't' :: 'r' :: 'u' :: 'e' :: rest => some (Json.bool true, rest)
    | 'f' :: 'a' :: 'l' :: 's' :: 'e' :: rest => some (Json.bool false, rest)
    | 'n' :: 'u' :: 'l' :: 'l' :: rest => some (Json.null, rest)
    | other => (jsonParseNumber other).map (fun p => (Json.num p.1, p.2))

/-- Members of a JSON object, `cs` already whitespace-skipped and past `{`
(or past a separating comma). -/
def jsonParseObjItems (fuel : Nat) (cs : List Char) (acc : List (String × Json))
    (first : Bool) : Option (Json × List Char) :=
  match fuel with
  | 0 => none
  | fuel + 1 =>
    match cs with
    | '\x7d' :: rest =>
        if first then some (Json.obj acc, rest) else none
    | '"' :: rest =>
        match jsonParseStringBody (rest.length + 1) rest [] with
        | none => none
        | some (k, afterKey) =>
          match jsonSkipWs afterKey with
          | ':' :: afterColon =>
            match jsonParseValue fuel afterColon with
            | none => none
            | some (v, afterVal) =>
              match jsonSkipWs afterVal with
              | ',' :: afterComma =>
                  jsonParseObjItems fuel (jsonSkipWs afterComma) (acc ++ [(k, v)]) false
              | '\x7d' :: rest2 => some (Json.obj (acc ++ [(k, v)]), rest2)
              | _ => none
          | _ => none
    | _ => none

/-- Elements of a JSON array, `cs` already whitespace-skipped and past `[`
(or past a separating comma). -/
def jsonParseArrItems (fuel : Nat) (cs : List Char) (acc : List Json)
    (first : Bool) : Option (Json × List Char) :=
  match fuel with
  | 0 => none
  | fuel + 1 =>
    match cs with
    | ']' :: rest =>
        if first then some (Json.arr acc, rest) else none
    | _ =>
      match jsonParseValue fuel cs with
      | none => none
      | some (v, afterVal) =>
        match jsonSkipWs afterVal with
        | ',' :: afterComma => jsonParseArrItems fuel (jsonSkipWs afterComma) (acc ++ [v]) false
        | ']' :: rest2 => some (Json.arr (acc ++ [v]), rest2)
        | _ => none

end

/-- `json.loads`: one value, then only trailing whitespace (else the
"Extra data" error).  `none` models a raised `json.JSONDecodeError`. -/
def jsonLoads (s : String) : Option Json :=
  match jsonParseValue (s.data.length + 2) s.data with
  | some (v, rest) => if (jsonSkipWs rest).isEmpty then some v else none
  | none => none

/-! ## The regular-expression fragment used by `PatternMatcher`

The nine rule patterns use only literal runs, `.` (any character except
newline), `.*`, and top-level alternation `|`.  A pattern is embedded as a
list of alternatives, each a sequence of items; `reSearch` is
`re.search(pattern, s)` viewed as a boolean (`re.IGNORECASE` is immaterial
because `classify` lower-cases the description and every pattern is already
lower-case). -/

/-- One item of a regex alternative. -/
inductive RItem where
  | lit (s : List Char) : RItem
  | dot : RItem
  | dotStar : RItem

/-- A whole pattern: alternation of sequences. -/
abbrev Regex := List (List RItem)

/-- Does the item sequence match some prefix of `cs`?  Fuel-structural so the
kernel can evaluate it; `rs.length + cs.length + 1` fuel always suffices. -/
def matchFrom (fuel : Nat) (rs : List RItem) (cs : List Char) : Bool :=
  match fuel with
  | 0 => false
  | fuel + 1 =>
    match rs, cs with
    | [], _ => true
    | RItem.lit l :: rest, cs =>
        l.isPrefixOf cs && matchFrom fuel rest (cs.drop l.length)
    | RItem.dot :: _, [] => false
    | RItem.dot :: rest, c :: cs => c != '\n' && matchFrom fuel rest cs
    | RItem.dotStar :: rest, [] => matchFrom fuel rest []
    | RItem.dotStar :: rest, c :: cs =>
        matchFrom fuel rest (c :: cs) || (c != '\n' && matchFrom fuel (RItem.dotStar :: rest) cs)

/-- Does the item sequence match starting at any position of `cs`? -/
def searchSeq (rs : List RItem) : List Char → Bool
  | [] => matchFrom (rs.length + 1) rs []
  | c :: cs => matchFrom (rs.length + cs.length + 2) rs (c :: cs) || searchSeq rs cs

/-- `re.search` as a boolean: some alternative matches somewhere. -/
def reSearch (r : Regex) (cs : List Char) : Bool :=
  r.any (fun alt => searchSeq alt cs)

/-! ## `RemediationAction` and the `PatternMatcher` rule table -/

/-- The `RemediationAction` dataclass of `pattern_matcher.py`.  `parameters`
is the free-form string-keyed mapping the dataclass declares (`Dict`), with
JSON-typed values. -/
structure RemediationAction where
  action_type : String
  target : String
  parameters : List (String × Json)
  confidence : ℚ
  reason : String

/-- `parameters.get(k, dflt)` on an action. -/
def RemediationAction.paramGetD (a : RemediationAction) (k : String) (dflt : Json) : Json :=
  Json.objGetD a.parameters k dflt

/-- One entry of `PatternMatcher._load_patterns`. -/
structure HealRule where
  name : String
  alert_name : String
  pattern : Regex
  action : RemediationAction

/-- Rule 1 action (`pod_crash_loop`). -/
def podCrashLoopAction : RemediationAction :=
  { action_type := "restart", target := "pod",
    parameters := [("grace_period", Json.num 30)],
    confidence := mkRat 95 100,
    reason := "Pod is crash looping - restart with fresh state" }

/-- Rule 2 action (`service_down`). -/
def serviceDownAction : RemediationAction :=
  { action_type := "restart", target := "deployment",
    parameters := [("replicas", Json.str "current")],
    confidence := mkRat 90 100,
    reason := "Service is down - restart all pods" }

/-- Rule 3 action (`pod_not_ready`). -/
def podNotReadyAction : RemediationAction :=
  { action_type := "investigate", target := "pod",
    parameters := [("check_events", Json.bool true), ("check_logs", Json.bool true)],
    confidence := mkRat 70 100,
    reason := "Pod not ready - needs investigation" }

/-- Rule 4 action (`memory_leak`). -/
def memoryLeakAction : RemediationAction :=
  { action_type := "restart", target := "pod",
    parameters := [("drain_connections", Json.bool true), ("grace_period", Json.num 60)],
    confidence := mkRat 92 100,
    reason := "Memory leak detected - restart to reclaim memory" }

/-- Rule 5 action (`high_memory_usage`). -/
def highMemoryAction : RemediationAction :=
  { action_type := "scale", target := "deployment",
    parameters := [("direction", Json.str "up"), ("increment", Json.num 1)],
    confidence := mkRat 80 100,
    reason := "High memory usage - scale horizontally" }

/-- Rule 6 action (`high_cpu`). -/
def highCpuAction : RemediationAction :=
  { action_type := "scale", target := "deployment",
    parameters := [("direction", Json.str "up"), ("increment", Json.num 1)],
    confidence := mkRat 85 100,
    reason := "High CPU usage - scale horizontally" }

/-- Rule 7 action (`high_error_rate`). -/
def highErrorRateAction : RemediationAction :=
  { action_type := "rollback", target := "deployment",
    parameters := [("revisions_back", Json.num 1)],
    confidence := mkRat 88 100,
    reason := "High error rate - likely bad deployment, rollback" }

/-- Rule 8 action (`high_latency`). -/
def highLatencyAction : RemediationAction :=
  { action_type := "scale", target := "deployment",
    parameters := [("direction", Json.str "up"), ("increment", Json.num 2)],
    confidence := mkRat 82 100,
    reason := "High latency - scale to handle load" }

/-- Rule 9 action (`too_few_replicas`). -/
def tooFewReplicasAction : RemediationAction :=
  { action_type := "scale", target := "deployment",
    parameters := [("direction", Json.str "up"), ("to_spec", Json.bool true)],
    confidence := mkRat 95 100,
    reason := "Replicas below specification - scale to match spec" }

/-- `PatternMatcher._load_patterns`: the ordered rule table, patterns
transcribed item-for-item from the regex literals in the source. -/
def loadPatterns : List HealRule :=
  [ { name := "pod_crash_loop", alert_name := "PodCrashLooping",
      pattern := [[RItem.lit "crash".data, RItem.dotStar, RItem.lit "loop".data]],
      action := podCrashLoopAction },
    { name := "service_down", alert_name := "ServiceDown",
      pattern := [[RItem.lit "service".data, RItem.dotStar, RItem.lit "down".data],
                  [RItem.lit "up".data, RItem.dotStar, RItem.lit "== 0".data]],
      action := serviceDownAction },
    { name := "pod_not_ready", alert_name := "PodNotReady",
      pattern := [[RItem.lit "pod".data, RItem.dotStar, RItem.lit "not ready".data],
                  [RItem.lit "pending".data], [RItem.lit "unknown".data]],
      action := podNotReadyAction },
    { name := "memory_leak", alert_name := "MemoryLeakDetected",
      pattern := [[RItem.lit "memory".data, RItem.dotStar, RItem.lit "leak".data],
                  [RItem.lit "memory".data, RItem.dotStar, RItem.lit "95".data]],
      action := memoryLeakAction },
    { name := "high_memory_usage", alert_name := "HighMemoryUsage",
      pattern := [[RItem.lit "memory".data, RItem.dotStar, RItem.lit "85".data],
                  [RItem.lit "high memory".data]],
      action := highMemoryAction },
    { name := "high_cpu", alert_name := "HighCPUUsage",
      pattern := [[RItem.lit "cpu".data, RItem.dotStar, RItem.lit "80".data],
                  [RItem.lit "high cpu".data]],
      action := highCpuAction },
    { name := "high_error_rate", alert_name := "HighErrorRate",
      pattern := [[RItem.lit "error rate".data, RItem.dotStar, RItem.lit "5".data],
                  [RItem.lit "errors".data, RItem.dotStar, RItem.lit "high".data]],
      action := highErrorRateAction },
    { name := "high_latency", alert_name := "HighLatency",
      pattern := [[RItem.lit "latency".data, RItem.dotStar,
                   RItem.lit "0".data, RItem.dot, RItem.lit "5".data],
                  [RItem.lit "slow".data, RItem.dotStar, RItem.lit "response".data]],
      action := highLatencyAction },
    { name := "too_few_replicas", alert_name := "TooFewReplicas",
      pattern := [[RItem.lit "too few replicas".data],
                  [RItem.lit "replicas".data, RItem.dotStar, RItem.lit "low".data]],
      action := tooFewReplicasAction } ]

/-! ## Alerts and `PatternMatcher.classify` -/

/-- An inbound alert: label and annotation dicts (string-valued, as
AlertManager delivers them).  The firing timestamp is unused by the claims
and omitted. -/
structure Alert where
  labels : List (String × String)
  annotations : List (String × String)

/-- The rule loop of `PatternMatcher.classify`: per rule, exact name check
first, then regex search on the (already lower-cased) description. -/
def classifyRules : List HealRule → String → List Char → Option RemediationAction
  | [], _, _ => none
  | r :: rs, alertName, desc =>
      if r.alert_name == alertName then some r.action
      else if reSearch r.pattern desc then some r.action
      else classifyRules rs alertName desc

/-- `PatternMatcher.classify(alert)`. -/
def PatternMatcher.classify (alert : Alert) : Option RemediationAction :=
  let alertName := pyGetD alert.labels "alertname" ""
  let description := strLower (pyGetD alert.annotations "description" "")
  classifyRules loadPatterns alertName description.data

/-- `PatternMatcher.get_confidence_threshold()`. -/
def PatternMatcher.getConfidenceThreshold : ℚ := mkRat 85 100

/-! ## `AIAnalyzer`: defensive parsing of the reasoner's reply -/

/-- Helper for Python `s.split(sep)`. -/
def pySplitOnAux (fuel : Nat) (sep : List Char) (cs : List Char) (acc : List Char) :
    List (List Char) :=
  match fuel with
  | 0 => [acc.reverse]
  | fuel + 1 =>
    match cs with
    | [] => [acc.reverse]
    | c :: rest =>
        if sep.isPrefixOf (c :: rest) then
          acc.reverse :: pySplitOnAux fuel sep ((c :: rest).drop sep.length) []
        else pySplitOnAux fuel sep rest (c :: acc)

/-- Python `s.split(sep)` for a non-empty separator. -/
def pySplitOn (sep : List Char) (cs : List Char) : List (List Char) :=
  pySplitOnAux (cs.length + 1) sep cs []

/-- The code-fence stripping of `_parse_ai_response` (lines 191-199):
`strip()`, then if the text starts with three backticks take
`split(backticks)[1]` and drop a leading `"json"`, then `strip()` again.
The index `[1]` cannot fail because the text starts with the separator. -/
def stripFences (aiResponse : String) : String :=
  let t := pyStrip aiResponse
  let t :=
    if "```".data.isPrefixOf t.data then
      let p1 := ((pySplitOn "```".data t.data).get? 1).getD []
      if "json".data.isPrefixOf p1 then String.mk (p1.drop 4) else String.mk p1
    else t
  pyStrip t

/-- The entries of a parsed `parameters` value when it is a JSON object.
The source stores whatever `parsed.get("parameters", {})` returns; the
embedding restricts `parameters` to the mapping type the dataclass declares,
so a non-object value is represented by the empty mapping (no claim observes
such an action's parameters). -/
def jsonObjEntries : Json → List (String × Json)
  | .obj kvs => kvs
  | _ => []

/-- `AIAnalyzer._parse_ai_response(ai_response)`.  Branches, in source
order: successful `json.loads` on a dict builds the action from `.get`
defaults (a `float()` failure on the confidence value falls to the
`except Exception` arm, confidence 0.0); `json.loads` on a non-dict makes
`parsed.get` raise `AttributeError`, also the `except Exception` arm;
a `json.JSONDecodeError` yields the confidence-0.3 fallback carrying the
raw response (truncated) in parameters and reason. -/
def AIAnalyzer.parseAiResponse (aiResponse : String) : RemediationAction :=
  let responseText := stripFences aiResponse
  match jsonLoads responseText with
  | some (Json.obj kvs) =>
      match (Json.objGetD kvs "confidence" (Json.num (mkRat 1 2))).pyFloat with
      | some conf =>
          { action_type := (Json.objGetD kvs "action_type" (Json.str "investigate")).pyRender,
            target := (Json.objGetD kvs "target" (Json.str "pod")).pyRender,
            parameters := jsonObjEntries (Json.objGetD kvs "parameters" (Json.obj [])),
            confidence := conf,
            reason := "AI Analysis: " ++ (Json.objGetD kvs "reason" (Json.str "No reason provided")).pyRender }
      | none =>
          { action_type := "investigate", target := "pod", parameters := [],
            confidence := 0,
            reason := "AI analysis error: invalid confidence value" }
  | some _ =>
      { action_type := "investigate", target := "pod", parameters := [],
        confidence := 0,
        reason := "AI analysis error: response is not a JSON object" }
  | none =>
      { action_type := "investigate", target := "pod",
        parameters := [("ai_response", Json.str (strTake 500 aiResponse))],
        confidence := mkRat 3 10,
        reason := "AI analysis inconclusive. Response: " ++ strTake 200 aiResponse ++ "..." }

/-- The reasoner-side environment seen by one `analyze_alert` call: the
client is absent (no credential), or the request round-trip raises, or it
returns raw reply text. -/
inductive AIEnv where
  | unavailable : AIEnv
  | raises (msg : String) : AIEnv
  | replies (raw : String) : AIEnv

/-- `AIAnalyzer.is_available()`. -/
def AIEnv.isAvailable : AIEnv → Bool
  | .unavailable => false
  | _ => true

/-- `AIAnalyzer.analyze_alert`: `None` when unavailable; any exception from
the request is caught and becomes `None`; otherwise the parsed reply. -/
def AIAnalyzer.analyzeAlert (env : AIEnv) : Option RemediationAction :=
  match env with
  | .unavailable => none
  | .raises _ => none
  | .replies raw => some (AIAnalyzer.parseAiResponse raw)

/-! ## `HybridClassifier` -/

/-- The step-3 fallback action of `HybridClassifier.classify`. -/
def manualReviewAction : RemediationAction :=
  { action_type := "investigate", target := "pod",
    parameters := [("reason", Json.str "No pattern match and AI unavailable")],
    confidence := 0,
    reason := "Unable to classify - requires manual investigation" }

/-- `HybridClassifier.classify(alert)`: rules, then AI when available, then
the manual-review fallback.  (The statistics-counter increments are side
effects no claim observes and are omitted.) -/
def HybridClassifier.classify (env : AIEnv) (alert : Alert) : RemediationAction :=
  match PatternMatcher.classify alert with
  | some action => action
  | none =>
      if env.isAvailable then
        match AIAnalyzer.analyzeAlert env with
        | some action => action
        | none => manualReviewAction
      else manualReviewAction

/-- `HybridClassifier.should_auto_execute(action, dry_run)`: false on
dry-run; false for investigate; otherwise confidence ≥ the matcher's 0.85
threshold.  (The `auto_executed` counter increment is omitted.) -/
def HybridClassifier.shouldAutoExecute (action : RemediationAction) (dryRun : Bool) : Bool :=
  if dryRun then false
  else if action.action_type == "investigate" then false
  else decide (action.confidence ≥ PatternMatcher.getConfidenceThreshold)

/-! ## `KubernetesRemediator` -/

/-- Python `a + b` on rationals, written with `mkRat` (value-equal to `+`)
so concrete runs reduce in the kernel. -/
def qAdd (a b : ℚ) : ℚ :=
  mkRat (a.num * (b.den : Int) + b.num * (a.den : Int)) (a.den * b.den)

/-- Python `a - b` on rationals, written with `mkRat`. -/
def qSub (a b : ℚ) : ℚ :=
  mkRat (a.num * (b.den : Int) - b.num * (a.den : Int)) (a.den * b.den)

/-- Python `max(a, b)`. -/
def qMax (a b : ℚ) : ℚ := if a ≤ b then b else a

/-- The slice of a deployment object the code reads: `spec.replicas` and the
`deployment.kubernetes.io/revision` metadata annotation.  (The code reads no
other replica field — in particular not the one the deployment's original
manifest specified; see the `to_spec` theorems.) -/
structure Deployment where
  replicas : Int
  revision : Option String

/-- The slice of a pod object the investigate branch reads.  `logs = none`
models a failing `read_namespaced_pod_log` call (swallowed by its inner
`try`). -/
structure PodInfo where
  phase : String
  logs : Option String

/-- The namespace-scoped cluster the executor talks to.  `undoOk`/`undoErr`
model the exit status and stderr of the `kubectl rollout undo` subprocess. -/
structure ClusterState where
  deployments : List (String × Deployment)
  pods : List (String × PodInfo)
  events : List (String × String)
  undoOk : Bool
  undoErr : String

/-- Look up a deployment (`read_namespaced_deployment`; `none` models the
404 `ApiException`). -/
def ClusterState.findDeployment (st : ClusterState) (name : String) : Option Deployment :=
  (st.deployments.find? (fun kv => kv.1 == name)).map (fun kv => kv.2)

/-- Look up a pod (`read_namespaced_pod`; `none` models the 404
`ApiException`). -/
def ClusterState.findPod (st : ClusterState) (name : String) : Option PodInfo :=
  (st.pods.find? (fun kv => kv.1 == name)).map (fun kv => kv.2)

/-- One Kubernetes API call (or the rollback subprocess) issued by the
executor, as recorded for the frame conditions. -/
inductive K8sCall where
  | readDeployment (name : String)
  | patchDeploymentReplicas (name : String) (newReplicas : ℚ)
  | patchDeploymentRestartAt (name : String)
  | deletePod (name : String) (grace : Json)
  | rolloutUndo (name : String) (toRevision : ℚ)
  | readPod (name : String)
  | readPodLog (name : String)
  | listEvents (objName : String)

/-- Which calls mutate cluster state. -/
def K8sCall.isMutating : K8sCall → Bool
  | .patchDeploymentReplicas _ _ => true
  | .patchDeploymentRestartAt _ => true
  | .deletePod _ _ => true
  | .rolloutUndo _ _ => true
  | _ => false

/-- The result dict an executor handler returns.  Keys a branch does not set
are `none`. -/
structure ResultDict where
  status : String
  message : String
  action : Option String := none
  target : Option String := none
  resFrom : Option ℚ := none
  resTo : Option ℚ := none
  fromRevision : Option String := none
  errorText : Option String := none
  data : Option (List (String × Json)) := none

/-- What comes out of `execute`: a returned result dict, or an exception the
code does not catch (its Python type name is recorded). -/
inductive Outcome where
  | ok (r : ResultDict) : Outcome
  | raised (exc : String) : Outcome

/-- Status of an outcome (`none` when an exception escaped). -/
def Outcome.statusOf : Outcome → Option String
  | .ok r => some r.status
  | .raised _ => none

/-- Message of an outcome (`none` when an exception escaped). -/
def Outcome.messageOf : Outcome → Option String
  | .ok r => some r.message
  | .raised _ => none

/-- Outcome of one `execute` run: the returned value or escaped exception,
the cluster calls issued, and the executor's `actions_taken` list afterwards. -/
structure ExecEffect where
  out : Outcome
  calls : List K8sCall
  taken : List ResultDict

/-- `KubernetesRemediator._restart`. -/
def restartExec (dryRun : Bool) (cluster : ClusterState) (taken : List ResultDict)
    (serviceName : String) (podName : Option String) (action : RemediationAction) :
    ExecEffect :=
  if dryRun then
    { out := .ok { status := "dry_run",
                   message := "Would restart pod(s) for " ++ serviceName,
                   action := some "restart" },
      calls := [], taken := taken }
  else
    match podName with
    | some p =>
        let grace := action.paramGetD "grace_period" (Json.num 30)
        match cluster.findPod p with
        | some _ =>
            let r : ResultDict :=
              { status := "success", message := "Restarted pod " ++ p,
                action := some "restart", target := some p }
            { out := .ok r, calls := [.deletePod p grace], taken := taken ++ [r] }
        | none =>
            { out := .ok { status := "error",
                           message := "Failed to restart: Not Found",
                           errorText := some "ApiException: Not Found" },
              calls := [.deletePod p grace], taken := taken }
    | none =>
        match cluster.findDeployment serviceName with
        | some _ =>
            let r : ResultDict :=
              { status := "success",
                message := "Triggered rolling restart of " ++ serviceName,
                action := some "restart", target := some serviceName }
            { out := .ok r,
              calls := [.readDeployment serviceName, .patchDeploymentRestartAt serviceName],
              taken := taken ++ [r] }
        | none =>
            { out := .ok { status := "error",
                           message := "Failed to restart: Not Found",
                           errorText := some "ApiException: Not Found" },
              calls := [.readDeployment serviceName], taken := taken }

/-- `KubernetesRemediator._scale`.  Note the source computes
`spec_replicas = deployment.spec.replicas` — the same live field as
`current_replicas` (its own comment: "In real scenario, get from original
spec") — and that a non-numeric `increment` raises a `TypeError` inside a
`try` that catches only `ApiException`, so the exception escapes. -/
def scaleExec (dryRun : Bool) (cluster : ClusterState) (taken : List ResultDict)
    (serviceName : String) (action : RemediationAction) : ExecEffect :=
  let direction := action.paramGetD "direction" (Json.str "up")
  let increment := action.paramGetD "increment" (Json.num 1)
  let toSpec := action.paramGetD "to_spec" (Json.bool false)
  if dryRun then
    { out := .ok { status := "dry_run",
                   message := "Would scale " ++ serviceName ++ " " ++ direction.pyRender
                     ++ " by " ++ increment.pyRender,
                   action := some "scale" },
      calls := [], taken := taken }
  else
    match cluster.findDeployment serviceName with
    | none =>
        { out := .ok { status := "error",
                       message := "Failed to scale: Not Found",
                       errorText := some "ApiException: Not Found" },
          calls := [.readDeployment serviceName], taken := taken }
    | some d =>
        let currentReplicas : ℚ := mkRat d.replicas 1
        let specReplicas : ℚ := mkRat d.replicas 1
        let newReplicas? : Option ℚ :=
          if toSpec.truthy then some specReplicas
          else if direction.eqStr "up" then
            (increment.pyNum).map (fun inc => qAdd currentReplicas inc)
          else
            (increment.pyNum).map (fun inc => qMax 1 (qSub currentReplicas inc))
        match newReplicas? with
        | none =>
            { out := .raised "TypeError",
              calls := [.readDeployment serviceName], taken := taken }
        | some newReplicas =>
            let r : ResultDict :=
              { status := "success",
                message := "Scaled " ++ serviceName ++ " from " ++ currentReplicas.num.repr
                  ++ " to " ++ newReplicas.num.repr,
                action := some "scale", target := some serviceName,
                resFrom := some currentReplicas, resTo := some newReplicas }
            { out := .ok r,
              calls := [.readDeployment serviceName,
                        .patchDeploymentReplicas serviceName newReplicas],
              taken := taken ++ [r] }

/-- `KubernetesRemediator._rollback`.  Everything inside its `try` is
guarded by `except Exception`, so conversion failures and a failing
`kubectl rollout undo` all surface as `error` results. -/
def rollbackExec (dryRun : Bool) (cluster : ClusterState) (taken : List ResultDict)
    (serviceName : String) (action : RemediationAction) : ExecEffect :=
  let revisionsBack := action.paramGetD "revisions_back" (Json.num 1)
  if dryRun then
    { out := .ok { status := "dry_run",
                   message := "Would rollback " ++ serviceName ++ " by "
                     ++ revisionsBack.pyRender ++ " revision(s)",
                   action := some "rollback" },
      calls := [], taken := taken }
  else
    match cluster.findDeployment serviceName with
    | none =>
        { out := .ok { status := "error",
                       message := "Failed to rollback: ApiException: Not Found",
                       errorText := some "ApiException: Not Found" },
          calls := [.readDeployment serviceName], taken := taken }
    | some d =>
        let currentRevision := d.revision.getD "1"
        match pyIntOfString currentRevision with
        | none =>
            { out := .ok { status := "error",
                           message := "Failed to rollback: ValueError",
                           errorText := some "ValueError" },
              calls := [.readDeployment serviceName], taken := taken }
        | some cr =>
            match revisionsBack.pyNum with
            | none =>
                { out := .ok { status := "error",
                               message := "Failed to rollback: TypeError",
                               errorText := some "TypeError" },
                  calls := [.readDeployment serviceName], taken := taken }
            | some rb =>
                let toRev := qSub (mkRat cr 1) rb
                if cluster.undoOk then
                  let r : ResultDict :=
                    { status := "success",
                      message := "Rolled back " ++ serviceName ++ " by "
                        ++ revisionsBack.pyRender ++ " revision(s)",
                      action := some "rollback", target := some serviceName,
                      fromRevision := some currentRevision }
                  { out := .ok r,
                    calls := [.readDeployment serviceName, .rolloutUndo serviceName toRev],
                    taken := taken ++ [r] }
                else
                  { out := .ok { status := "error",
                                 message := "Failed to rollback: " ++ cluster.undoErr,
                                 errorText := some cluster.undoErr },
                    calls := [.readDeployment serviceName, .rolloutUndo serviceName toRev],
                    taken := taken }

/-- `KubernetesRemediator._investigate`: read-only diagnostics; a failing
pod read hits the outer `except` (error result); the deployment and event
fetches have inner `try`s whose failures are skipped. -/
def investigateExec (cluster : ClusterState) (taken : List ResultDict)
    (serviceName : String) (podName : Option String) : ExecEffect :=
  let base : List (String × Json) := []
  match podName with
  | some p =>
      (match cluster.findPod p with
       | none =>
           { out := .ok { status := "error",
                          message := "Failed to gather diagnostics: ApiException: Not Found",
                          errorText := some "ApiException: Not Found" },
             calls := [.readPod p], taken := taken }
       | some pi =>
           let d1 := base ++ [("pod_status", Json.str pi.phase)]
           let d2 :=
             match pi.logs with
             | some l => d1 ++ [("recent_logs", Json.str l)]
             | none => d1
           let d3 :=
             match cluster.findDeployment serviceName with
             | some d => d2 ++ [("deployment", Json.num (mkRat d.replicas 1))]
             | none => d2
           let evs := (cluster.events.filter (fun kv => kv.1 == p)).map
             (fun kv => Json.str kv.2)
           let d4 := d3 ++ [("events", Json.arr (evs.take 10))]
           { out := .ok { status := "investigation",
                          message := "Gathered diagnostic data - requires manual review",
                          action := some "investigate", data := some d4 },
             calls := [.readPod p, .readPodLog p, .readDeployment serviceName, .listEvents p],
             taken := taken })
  | none =>
      let d3 :=
        match cluster.findDeployment serviceName with
        | some d => base ++ [("deployment", Json.num (mkRat d.replicas 1))]
        | none => base
      let evs := (cluster.events.filter (fun kv => kv.1 == serviceName)).map
        (fun kv => Json.str kv.2)
      let d4 := d3 ++ [("events", Json.arr (evs.take 10))]
      { out := .ok { status := "investigation",
                     message := "Gathered diagnostic data - requires manual review",
                     action := some "investigate", data := some d4 },
        calls := [.readDeployment serviceName, .listEvents serviceName],
        taken := taken }

/-- `KubernetesRemediator.execute(action, alert)`: resolve the target from
the alert's `service`/`pod` labels, dispatch on `action_type`, and return an
`error` result for any unknown type. -/
def KubernetesRemediator.execute (dryRun : Bool) (cluster : ClusterState)
    (taken : List ResultDict) (action : RemediationAction) (alert : Alert) : ExecEffect :=
  let serviceName := pyGetD alert.labels "service" "unknown"
  let podName := pyGetOpt alert.labels "pod"
  if action.action_type == "restart" then
    restartExec dryRun cluster taken serviceName podName action
  else if action.action_type == "scale" then
    scaleExec dryRun cluster taken serviceName action
  else if action.action_type == "rollback" then
    rollbackExec dryRun cluster taken serviceName action
  else if action.action_type == "investigate" then
    investigateExec cluster taken serviceName podName
  else
    { out := .ok { status := "error",
                   message := "Unknown action type: " ++ action.action_type },
      calls := [], taken := taken }

/-! ## The Orchestrator (`main.process_alert`) -/

/-- One record of the module-level `alert_history` list, in its final state
for the processed alert (the entry is appended in `processing` state and
mutated in place; the model records the end state).  Timestamps omitted. -/
structure AlertHistoryEntry where
  alert : Alert
  status : String
  actionType : Option String := none
  confidence : Option ℚ := none
  autoExecuted : Option Bool := none
  result : Option ResultDict := none
  errorText : Option String := none

/-- One record of the module-level `action_history` list. -/
structure ActionHistoryEntry where
  alertName : String
  actionType : String
  result : ResultDict

/-- The mutable state `process_alert` touches: the two history lists and the
remediator's `actions_taken`.  (The classifier/notifier statistic counters
are not observed by any claim and are omitted.) -/
structure ProcState where
  alertHistory : List AlertHistoryEntry
  actionHistory : List ActionHistoryEntry
  taken : List ResultDict

/-- The per-process environment of one `process_alert` call: the `DRY_RUN`
flag, the reasoner environment, and the cluster.  The notifier is modelled
as effect-free: `send_alert_notification` wraps its webhook post in
`try/except` and the message build raises nothing on string-valued alerts,
so it cannot alter the histories or abort processing. -/
structure OrchestratorEnv where
  dryRun : Bool
  ai : AIEnv
  cluster : ClusterState

/-- `process_alert(alert)`: classify, gate, maybe execute (appending to
`action_history` only after a successful return), notify, and finish the
alert entry as `completed` — or as `failed` when an exception escapes the
`try` (the only in-model source of one is the executor's `TypeError`; the
`action_history` append after the raising call is then skipped). -/
def processAlert (env : OrchestratorEnv) (st : ProcState) (alert : Alert) : ProcState :=
  let alertName := pyGetD alert.labels "alertname" "Unknown"
  let action := HybridClassifier.classify env.ai alert
  let shouldAuto := HybridClassifier.shouldAutoExecute action env.dryRun
  if shouldAuto then
    let eff := KubernetesRemediator.execute env.dryRun env.cluster st.taken action alert
    match eff.out with
    | .ok r =>
        { alertHistory := st.alertHistory ++
            [{ alert := alert, status := "completed",
               actionType := some action.action_type,
               confidence := some action.confidence,
               autoExecuted := some true, result := some r }],
          actionHistory := st.actionHistory ++
            [{ alertName := alertName, actionType := action.action_type, result := r }],
          taken := eff.taken }
    | .raised e =>
        { alertHistory := st.alertHistory ++
            [{ alert := alert, status := "failed", errorText := some e }],
          actionHistory := st.actionHistory,
          taken := eff.taken }
  else
    { alertHistory := st.alertHistory ++
        [{ alert := alert, status := "completed",
           actionType := some action.action_type,
           confidence := some action.confidence,
           autoExecuted := some false, result := none }],
      actionHistory := st.actionHistory,
      taken := st.taken }

/-- The replica counts carried by the deployment-replica patches in a call
trace (used to state the scale-floor claims). -/
def patchedCounts (calls : List K8sCall) : List ℚ :=
  calls.filterMap (fun c =>
    match c with
    | .patchDeploymentReplicas _ n => some n
    | _ => none)

/-- The `from` field of an outcome's result (`none` when absent or raised). -/
def Outcome.resFromOf : Outcome → Option ℚ
  | .ok r => r.resFrom
  | .raised _ => none

/-- The `to` field of an outcome's result (`none` when absent or raised). -/
def Outcome.resToOf : Outcome → Option ℚ
  | .ok r => r.resTo
  | .raised _ => none

/-- Whether the outcome's result message starts with the given text. -/
def Outcome.msgStarts (o : Outcome) (p : String) : Bool :=
  match o with
  | .ok r => p.data.isPrefixOf r.message.data
  | .raised _ => false

/-- The string value of field `k` of a reasoner reply, when the reply (after
fence stripping) parses as a JSON object holding a string there. -/
def jsonStrField (raw k : String) : Option String :=
  match jsonLoads (stripFences raw) with
  | some (Json.obj kvs) =>
      match Json.objGet kvs k with
      | some (Json.str s) => some s
      | _ => none
  | _ => none

/-! ## Concrete fixtures used by counterexamples and witnesses -/

/-- A scale action carrying both `direction: down` and `to_spec: true`
(constructible through the reasoner path, whose parameters are free-form). -/
def downToSpecAction : RemediationAction :=
  { action_type := "scale", target := "deployment",
    parameters := [("direction", Json.str "down"), ("to_spec", Json.bool true)],
    confidence := mkRat 9 10, reason := "scale down to spec" }

/-- A scale action whose `increment` parameter is a (non-numeric) string. -/
def scaleBadIncrementAction : RemediationAction :=
  { action_type := "scale", target := "deployment",
    parameters := [("direction", Json.str "up"), ("increment", Json.str "two")],
    confidence := mkRat 9 10, reason := "scale up" }

/-- A cluster with one deployment `svc` scaled to zero replicas. -/
def zeroReplicaCluster : ClusterState :=
  { deployments := [("svc", { replicas := 0, revision := none })],
    pods := [], events := [], undoOk := true, undoErr := "" }

/-- A cluster with one deployment `svc` whose live `spec.replicas` is 2
(the "current count" of the scenarios) and one running pod. -/
def demoCluster : ClusterState :=
  { deployments := [("svc", { replicas := 2, revision := some "4" })],
    pods := [("pod-1", { phase := "Running", logs := some "log tail" })],
    events := [], undoOk := true, undoErr := "" }

/-- An alert pointing at service `svc`, matching no rule. -/
def svcAlert : Alert :=
  Alert.mk [("alertname", "StrangeCondition"), ("service", "svc")] []

/-- The `TooFewReplicas` alert of the end-to-end scenario. -/
def tooFewAlert : Alert :=
  Alert.mk [("alertname", "TooFewReplicas"), ("service", "svc")]
    [("description", "too few replicas")]

/-- An alert matching no rule by name or description. -/
def unmatchedAlert : Alert :=
  Alert.mk [("alertname", "SomethingNovel")] [("description", "mysterious condition")]

/-- A syntactically valid reasoner reply recommending a scale with a
string-valued increment at confidence 0.9. -/
def rawScaleBadIncrement : String :=
  "\x7b\"action_type\": \"scale\", \"confidence\": 0.9, \"parameters\": \x7b\"increment\": \"two\"\x7d\x7d"

/-- A syntactically valid reasoner reply whose `action_type` is none of the
four dispatchable types, at confidence 0.99. -/
def rawUnknownType : String :=
  "\x7b\"action_type\": \"delete_namespace\", \"confidence\": 0.99\x7d"

/-- A syntactically valid reasoner reply: `action_type` present as a string,
`confidence` present but `null` (not float-convertible). -/
def rawRestartNullConfidence : String :=
  "\x7b\"action_type\": \"restart\", \"confidence\": null\x7d"

/-! ## Theorems -/

/-- C1: `should_auto_execute(action, dry_run)` is false whenever `dry_run`
is true (any action, any confidence); false whenever the action type is
`investigate` (any confidence, including 1.0); and otherwise true iff
`confidence ≥ 0.85`, with confidence exactly 0.85 giving true and
0.849999 giving false. -/
theorem shouldAutoExecute_spec (a : RemediationAction) (dry : Bool) :
    (dry = true → HybridClassifier.shouldAutoExecute a dry = false) ∧
    (a.action_type = "investigate" → HybridClassifier.shouldAutoExecute a dry = false) ∧
    (dry = false → a.action_type ≠ "investigate" →
      (HybridClassifier.shouldAutoExecute a dry = true ↔ a.confidence ≥ mkRat 85 100)) ∧
    HybridClassifier.shouldAutoExecute
      { action_type := "restart", target := "pod", parameters := [],
        confidence := mkRat 85 100, reason := "" } false = true ∧
    HybridClassifier.shouldAutoExecute
      { action_type := "restart", target := "pod", parameters := [],
        confidence := mkRat 849999 1000000, reason := "" } false = false := by
  refine ⟨fun h => ?_, fun h => ?_, fun hd hne => ?_, by decide, by decide⟩
  · subst h; simp [HybridClassifier.shouldAutoExecute]
  · cases dry <;> simp [HybridClassifier.shouldAutoExecute, h]
  · subst hd
    simp [HybridClassifier.shouldAutoExecute, PatternMatcher.getConfidenceThreshold,
      hne, ge_iff_le]

/-- C1 witness: the theorem applied to a concrete investigate action with
full confidence and to the dry-run flag. -/
theorem shouldAutoExecute_spec_witness :
    HybridClassifier.shouldAutoExecute
      { action_type := "investigate", target := "pod", parameters := [],
        confidence := 1, reason := "" } false = false ∧
    HybridClassifier.shouldAutoExecute
      { action_type := "restart", target := "pod", parameters := [],
        confidence := mkRat 95 100, reason := "" } true = false :=
  ⟨(shouldAutoExecute_spec
      { action_type := "investigate", target := "pod", parameters := [],
        confidence := 1, reason := "" } false).2.1 rfl,
   (shouldAutoExecute_spec
      { action_type := "restart", target := "pod", parameters := [],
        confidence := mkRat 95 100, reason := "" } true).1 rfl⟩

/-- Rule-list lemma: if rule `i` matches the alert name and no earlier rule
matches by name or description, the scan returns rule `i`'s action. -/
theorem classifyRules_name_hit (rs : List HealRule) (i : Nat) (r : HealRule)
    (an : String) (desc : List Char)
    (hget : rs.get? i = some r) (hname : r.alert_name = an)
    (hearlier : ∀ j, j < i → ∀ r', rs.get? j = some r' →
      r'.alert_name ≠ an ∧ reSearch r'.pattern desc = false) :
    classifyRules rs an desc = some r.action := by
  induction rs generalizing i with
  | nil => simp at hget
  | cons r0 rest ih =>
    cases i with
    | zero =>
      simp only [List.get?] at hget
      injection hget with hget
      subst hget
      simp [classifyRules, hname]
    | succ i =>
      have h0 := hearlier 0 (Nat.succ_pos i) r0 rfl
      simp only [List.get?] at hget
      have hne : (r0.alert_name == an) = false := by
        simp [h0.1]
      simp only [classifyRules, hne, Bool.false_eq_true, if_false, h0.2]
      exact ih i hget (fun j hj r' hr' =>
        hearlier (j + 1) (Nat.succ_lt_succ hj) r' hr')

/-- C3 counterexample: the alert named `TooFewReplicas` whose description
mentions a crash loop is classified by the earlier `pod_crash_loop` rule
(description regex), not by the `too_few_replicas` rule its name matches —
so name match does not take precedence across rules. -/
theorem classify_name_precedence_counterexample :
    pyGetD (Alert.mk [("alertname", "TooFewReplicas")]
      [("description", "Crash Loop detected")]).labels "alertname" "" = "TooFewReplicas" ∧
    (loadPatterns.get? 8).map HealRule.alert_name = some "TooFewReplicas" ∧
    (loadPatterns.get? 8).map (fun r => r.action.action_type) = some "scale" ∧
    (PatternMatcher.classify (Alert.mk [("alertname", "TooFewReplicas")]
      [("description", "Crash Loop detected")])).map RemediationAction.action_type
      = some "restart" ∧
    PatternMatcher.classify (Alert.mk [("alertname", "TooFewReplicas")]
      [("description", "Crash Loop detected")]) ≠ some tooFewReplicasAction := by
  refine ⟨rfl, by decide, by decide, by decide, fun h => ?_⟩
  have h2 := congrArg (Option.map RemediationAction.action_type) h
  exact absurd h2 (by decide)

/-- C3 amended: for every alert whose `alertname` equals rule `i`'s
configured `alert_name`, classification returns that rule's action
regardless of the description, provided no earlier rule fires on the alert
(by name or by description regex) — earlier rules win over a later rule's
name match. -/
theorem classify_name_match (alert : Alert) (i : Nat) (r : HealRule)
    (hget : loadPatterns.get? i = some r)
    (hname : pyGetD alert.labels "alertname" "" = r.alert_name)
    (hearlier : ∀ j, j < i → ∀ r', loadPatterns.get? j = some r' →
      r'.alert_name ≠ pyGetD alert.labels "alertname" "" ∧
      reSearch r'.pattern (strLower (pyGetD alert.annotations "description" "")).data = false) :
    PatternMatcher.classify alert = some r.action := by
  unfold PatternMatcher.classify
  exact classifyRules_name_hit loadPatterns i r _ _ hget hname.symm hearlier

/-- C3 witness: the `HighCPUUsage` alert with an unrelated description is
classified by rule 5's name match. -/
theorem classify_name_match_witness :
    PatternMatcher.classify
      (Alert.mk [("alertname", "HighCPUUsage")] [("description", "all good here")])
      = some highCpuAction := by
  refine classify_name_match _ 5
    { name := "high_cpu", alert_name := "HighCPUUsage",
      pattern := [[RItem.lit "cpu".data, RItem.dotStar, RItem.lit "80".data],
                  [RItem.lit "high cpu".data]],
      action := highCpuAction } rfl rfl ?_
  intro j hj r' hr'
  interval_cases j <;>
    simp only [loadPatterns, List.get?, Option.some.injEq] at hr' <;>
    subst hr' <;> exact ⟨by decide, by decide⟩

/-- A JSON value equal (in Python) to a string literal is that string. -/
theorem Json.eqStr_true {j : Json} {s : String} (h : Json.eqStr j s = true) :
    j = Json.str s := by
  cases j <;> simp [Json.eqStr] at h
  simp [h]

/-- The `max(1, _)` floor of the scale-down branch. -/
theorem one_le_qMax_one (x : ℚ) : 1 ≤ qMax 1 x := by
  unfold qMax
  split
  · assumption
  · exact le_refl 1

/-- C2 counterexample: the scale action with `direction: down` and
`to_spec: true` against a deployment at zero replicas patches replica count
0 into the deployment and reports `to = 0` — the `to_spec` branch bypasses
the `max(1, ...)` floor, so the patched count is not at least 1. -/
theorem scale_down_floor_counterexample :
    (downToSpecAction.paramGetD "direction" (Json.str "up")).eqStr "down" = true ∧
    patchedCounts
      (KubernetesRemediator.execute false zeroReplicaCluster [] downToSpecAction
        svcAlert).calls = [0] ∧
    (KubernetesRemediator.execute false zeroReplicaCluster [] downToSpecAction
        svcAlert).out.statusOf = some "success" ∧
    (KubernetesRemediator.execute false zeroReplicaCluster [] downToSpecAction
        svcAlert).out.resToOf = some 0 ∧
    ¬ (1 : ℚ) ≤ 0 := by
  exact ⟨by decide, by decide, rfl, by decide, by decide⟩

/-- C2 amended: for every scale action with direction `down` whose `to_spec`
parameter is absent or falsy, every replica count patched into a deployment
is at least 1, and so is any `to` field the result reports — for any
cluster, increment, and dry-run flag.  (With a truthy `to_spec` the patched
count is instead the deployment's own live `spec.replicas`, unchanged, which
can be 0, as the counterexample shows.) -/
theorem scale_down_floor (action : RemediationAction) (dry : Bool)
    (cluster : ClusterState) (taken : List ResultDict) (alert : Alert)
    (htype : action.action_type = "scale")
    (hdir : (action.paramGetD "direction" (Json.str "up")).eqStr "down" = true)
    (hspec : (action.paramGetD "to_spec" (Json.bool false)).truthy = false) :
    (∀ q ∈ patchedCounts
        (KubernetesRemediator.execute dry cluster taken action alert).calls, 1 ≤ q) ∧
    (∀ t, (KubernetesRemediator.execute dry cluster taken action alert).out.resToOf
        = some t → 1 ≤ t) := by
  have hd := Json.eqStr_true hdir
  have hup : (action.paramGetD "direction" (Json.str "up")).eqStr "up" = false := by
    rw [hd]; decide
  unfold KubernetesRemediator.execute
  rw [htype]
  simp only [String.reduceBEq, Bool.false_eq_true, if_false, if_true, reduceIte]
  unfold scaleExec
  simp only [hspec, hup, Bool.false_eq_true, if_false, reduceIte]
  cases dry with
  | true =>
      simp [patchedCounts, Outcome.resToOf]
  | false =>
      simp only [Bool.false_eq_true, if_false]
      cases hfd : cluster.findDeployment (pyGetD alert.labels "service" "unknown") with
      | none => simp [patchedCounts, Outcome.resToOf]
      | some d =>
          cases hinc : (action.paramGetD "increment" (Json.num 1)).pyNum with
          | none => simp [patchedCounts, Outcome.resToOf]
          | some inc =>
              simp only [Option.map_some]
              constructor
              · intro q hq
                simp [patchedCounts] at hq
                rw [hq]
                exact one_le_qMax_one _
              · intro t ht
                simp [Outcome.resToOf] at ht
                rw [← ht]
                exact one_le_qMax_one _

/-- C2 witness: a down-scale by 5 of the 2-replica deployment patches 1
(the floor), at least 1. -/
theorem scale_down_floor_witness :
    patchedCounts (KubernetesRemediator.execute false demoCluster []
      (RemediationAction.mk "scale" "deployment"
        [("direction", Json.str "down"), ("increment", Json.num 5)]
        (mkRat 9 10) "scale down") svcAlert).calls = [1] ∧
    (1 : ℚ) ≤ 1 :=
  ⟨by decide,
   (scale_down_floor
      (RemediationAction.mk "scale" "deployment"
        [("direction", Json.str "down"), ("increment", Json.num 5)]
        (mkRat 9 10) "scale down") false demoCluster [] svcAlert
      rfl (by decide) (by decide)).1 1 (by decide)⟩

/-- C5 counterexample: the reply `"{}"` is valid JSON missing every
required key, yet parsing yields confidence 0.5 (the `.get` default), not
0.3, and a reason that does not carry the raw response. -/
theorem parse_missing_keys_counterexample :
    jsonLoads (stripFences "\x7b\x7d") = some (Json.obj []) ∧
    (AIAnalyzer.parseAiResponse "\x7b\x7d").action_type = "investigate" ∧
    (AIAnalyzer.parseAiResponse "\x7b\x7d").confidence = mkRat 1 2 ∧
    (AIAnalyzer.parseAiResponse "\x7b\x7d").confidence ≠ mkRat 3 10 ∧
    (AIAnalyzer.parseAiResponse "\x7b\x7d").reason = "AI Analysis: No reason provided" :=
  ⟨rfl, rfl, by decide, by decide, rfl⟩

/-- C5 amended: invalid JSON yields investigate / 0.3 with the first 200
characters of the raw reply in the reason; a JSON object missing the keys
yields the per-key defaults (investigate / 0.5 / "No reason provided", no
raw text); a non-object JSON reply, or a confidence value `float()` rejects,
takes the exception arm with confidence 0.0; and a reasoner-side exception
yields no action, which the gateway turns into investigate / 0.0.  No
failure propagates: every branch returns an action. -/
theorem parse_ai_response_fallbacks :
    (∀ r, jsonLoads (stripFences r) = none →
      (AIAnalyzer.parseAiResponse r).action_type = "investigate" ∧
      (AIAnalyzer.parseAiResponse r).confidence = mkRat 3 10 ∧
      (AIAnalyzer.parseAiResponse r).reason
        = "AI analysis inconclusive. Response: " ++ strTake 200 r ++ "...") ∧
    (∀ r kvs, jsonLoads (stripFences r) = some (Json.obj kvs) →
      Json.objGet kvs "action_type" = none → Json.objGet kvs "confidence" = none →
      Json.objGet kvs "reason" = none →
      (AIAnalyzer.parseAiResponse r).action_type = "investigate" ∧
      (AIAnalyzer.parseAiResponse r).confidence = mkRat 1 2 ∧
      (AIAnalyzer.parseAiResponse r).reason = "AI Analysis: No reason provided") ∧
    (∀ r j, jsonLoads (stripFences r) = some j → (∀ kvs, j ≠ Json.obj kvs) →
      (AIAnalyzer.parseAiResponse r).action_type = "investigate" ∧
      (AIAnalyzer.parseAiResponse r).confidence = 0) ∧
    (∀ r kvs, jsonLoads (stripFences r) = some (Json.obj kvs) →
      (Json.objGetD kvs "confidence" (Json.num (mkRat 1 2))).pyFloat = none →
      (AIAnalyzer.parseAiResponse r).action_type = "investigate" ∧
      (AIAnalyzer.parseAiResponse r).confidence = 0) ∧
    (∀ m alert, PatternMatcher.classify alert = none →
      (HybridClassifier.classify (AIEnv.raises m) alert).action_type = "investigate" ∧
      (HybridClassifier.classify (AIEnv.raises m) alert).confidence = 0) := by
  refine ⟨fun r h => ?_, fun r kvs h h1 h2 h3 => ?_, fun r j h hno => ?_,
    fun r kvs h hf => ?_, fun m alert h => ?_⟩
  · refine ⟨?_, ?_, ?_⟩ <;> simp [AIAnalyzer.parseAiResponse, h]
  · refine ⟨?_, ?_, ?_⟩ <;>
      simp [AIAnalyzer.parseAiResponse, h, Json.objGetD, h1, h2, h3, Json.pyFloat,
        Json.pyRender]
  · cases j with
    | obj kvs => exact absurd rfl (hno kvs)
    | null => exact ⟨by simp [AIAnalyzer.parseAiResponse, h], by simp [AIAnalyzer.parseAiResponse, h]⟩
    | bool b => exact ⟨by simp [AIAnalyzer.parseAiResponse, h], by simp [AIAnalyzer.parseAiResponse, h]⟩
    | num q => exact ⟨by simp [AIAnalyzer.parseAiResponse, h], by simp [AIAnalyzer.parseAiResponse, h]⟩
    | str s => exact ⟨by simp [AIAnalyzer.parseAiResponse, h], by simp [AIAnalyzer.parseAiResponse, h]⟩
    | arr l => exact ⟨by simp [AIAnalyzer.parseAiResponse, h], by simp [AIAnalyzer.parseAiResponse, h]⟩
  · refine ⟨?_, ?_⟩ <;> simp [AIAnalyzer.parseAiResponse, h, hf]
  · refine ⟨?_, ?_⟩ <;>
      simp [HybridClassifier.classify, h, AIEnv.isAvailable, AIAnalyzer.analyzeAlert,
        manualReviewAction]

/-- C5 witness: the fallback tiers at concrete inputs — unparsable text
gives 0.3; a reasoner exception on an unmatched alert gives 0.0. -/
theorem parse_ai_response_fallbacks_witness :
    (AIAnalyzer.parseAiResponse "not json").confidence = mkRat 3 10 ∧
    (HybridClassifier.classify (AIEnv.raises "boom") unmatchedAlert).confidence = 0 :=
  ⟨(parse_ai_response_fallbacks.1 "not json" rfl).2.1,
   (parse_ai_response_fallbacks.2.2.2.2 "boom" unmatchedAlert rfl).2⟩

/-- C10 counterexample: a reply that parses as JSON, carries
`action_type: "restart"` as a string, but whose `confidence` is `null`:
`float(None)` raises, the exception arm runs, and the action type becomes
`investigate` even though the key was present — "defaulting to investigate
only when the key is absent" does not hold as stated. -/
theorem ai_action_type_verbatim_counterexample :
    jsonStrField rawRestartNullConfidence "action_type" = some "restart" ∧
    (AIAnalyzer.parseAiResponse rawRestartNullConfidence).action_type = "investigate" ∧
    ("investigate" : String) ≠ "restart" :=
  ⟨rfl, rfl, by decide⟩

/-- C10 amended: when the reply parses as a JSON object and its confidence
value converts under `float()` (or is absent), the action's `action_type` is
the reply's string verbatim, defaulting to `investigate` exactly when the
key is absent, with no validation against the four dispatchable types;
consequently the unknown-type reply classifies at confidence 0.99, passes
the autonomy gate, and `execute` rejects it with an unknown-action error
result. -/
theorem ai_action_type_verbatim :
    (∀ r kvs s c, jsonLoads (stripFences r) = some (Json.obj kvs) →
      (Json.objGetD kvs "confidence" (Json.num (mkRat 1 2))).pyFloat = some c →
      Json.objGet kvs "action_type" = some (Json.str s) →
      (AIAnalyzer.parseAiResponse r).action_type = s) ∧
    (∀ r kvs c, jsonLoads (stripFences r) = some (Json.obj kvs) →
      (Json.objGetD kvs "confidence" (Json.num (mkRat 1 2))).pyFloat = some c →
      Json.objGet kvs "action_type" = none →
      (AIAnalyzer.parseAiResponse r).action_type = "investigate") ∧
    (HybridClassifier.classify (AIEnv.replies rawUnknownType) svcAlert).action_type
      = "delete_namespace" ∧
    HybridClassifier.shouldAutoExecute
      (HybridClassifier.classify (AIEnv.replies rawUnknownType) svcAlert) false = true ∧
    (KubernetesRemediator.execute false demoCluster []
      (HybridClassifier.classify (AIEnv.replies rawUnknownType) svcAlert)
      svcAlert).out.statusOf = some "error" ∧
    (KubernetesRemediator.execute false demoCluster []
      (HybridClassifier.classify (AIEnv.replies rawUnknownType) svcAlert)
      svcAlert).out.messageOf = some "Unknown action type: delete_namespace" := by
  refine ⟨fun r kvs s c h hc hk => ?_, fun r kvs c h hc hk => ?_,
    rfl, by decide, rfl, rfl⟩
  · simp only [AIAnalyzer.parseAiResponse, h]
    rw [hc]
    simp [Json.objGetD, hk, Json.pyRender]
  · simp only [AIAnalyzer.parseAiResponse, h]
    rw [hc]
    simp [Json.objGetD, hk, Json.pyRender]

/-- C10 witness: a well-formed reply's action type is taken verbatim. -/
theorem ai_action_type_verbatim_witness :
    (AIAnalyzer.parseAiResponse
      "\x7b\"action_type\": \"rollback\", \"confidence\": 0.7\x7d").action_type
      = "rollback" :=
  ai_action_type_verbatim.1
    "\x7b\"action_type\": \"rollback\", \"confidence\": 0.7\x7d"
    [("action_type", Json.str "rollback"), ("confidence", Json.num (mkRat 7 10))]
    "rollback" (mkRat 7 10) rfl rfl rfl

/-- C6: with the dry-run flag set, `execute` on a restart, scale, or
rollback action issues no mutating cluster call (in fact no call at all),
returns a `dry_run`-status result whose message describes the intended
effect ("Would ..."), and leaves the executor's `actions_taken` history
unchanged. -/
theorem dry_run_frame (action : RemediationAction) (cluster : ClusterState)
    (taken : List ResultDict) (alert : Alert)
    (htype : action.action_type = "restart" ∨ action.action_type = "scale" ∨
      action.action_type = "rollback") :
    (KubernetesRemediator.execute true cluster taken action alert).calls.filter
      K8sCall.isMutating = [] ∧
    (KubernetesRemediator.execute true cluster taken action alert).out.statusOf
      = some "dry_run" ∧
    (KubernetesRemediator.execute true cluster taken action alert).out.msgStarts
      "Would " = true ∧
    (KubernetesRemediator.execute true cluster taken action alert).taken = taken := by
  rcases htype with h | h | h
  · refine ⟨?_, ?_, ?_, ?_⟩ <;>
      simp only [KubernetesRemediator.execute, h, String.reduceBEq, Bool.false_eq_true,
        if_false, if_true, reduceIte, restartExec, Outcome.statusOf, Outcome.msgStarts,
        List.filter_nil]
    all_goals rfl
  · refine ⟨?_, ?_, ?_, ?_⟩ <;>
      simp only [KubernetesRemediator.execute, h, String.reduceBEq, Bool.false_eq_true,
        if_false, if_true, reduceIte, scaleExec, Outcome.statusOf, Outcome.msgStarts,
        List.filter_nil]
    all_goals rfl
  · refine ⟨?_, ?_, ?_, ?_⟩ <;>
      simp only [KubernetesRemediator.execute, h, String.reduceBEq, Bool.false_eq_true,
        if_false, if_true, reduceIte, rollbackExec, Outcome.statusOf, Outcome.msgStarts,
        List.filter_nil]
    all_goals rfl

/-- C6 witness: a dry-run scale against the demo cluster. -/
theorem dry_run_frame_witness :
    (KubernetesRemediator.execute true demoCluster [] tooFewReplicasAction
      tooFewAlert).calls.filter K8sCall.isMutating = [] ∧
    (KubernetesRemediator.execute true demoCluster [] tooFewReplicasAction
      tooFewAlert).out.statusOf = some "dry_run" :=
  ⟨(dry_run_frame tooFewReplicasAction demoCluster [] tooFewAlert
      (Or.inr (Or.inl rfl))).1,
   (dry_run_frame tooFewReplicasAction demoCluster [] tooFewAlert
      (Or.inr (Or.inl rfl))).2.1⟩

/-- C7: the failing input — a scale action whose `increment` parameter is
the string `"two"` (constructible from a reasoner reply) makes `execute`
raise a `TypeError` past its boundary (`current_replicas + increment` sits
in a `try` that catches only `ApiException`), instead of returning a
structured result.  For any `action_type` outside the four dispatchable
types, however, `execute` does return an `error` result naming the
unrecognized type, issuing no cluster call and leaving its history alone. -/
theorem execute_raise_and_unknown_type :
    (KubernetesRemediator.execute false demoCluster [] scaleBadIncrementAction
      svcAlert).out = Outcome.raised "TypeError" ∧
    (∀ (action : RemediationAction) (dry : Bool) (cluster : ClusterState)
      (taken : List ResultDict) (alert : Alert),
      action.action_type ≠ "restart" → action.action_type ≠ "scale" →
      action.action_type ≠ "rollback" → action.action_type ≠ "investigate" →
      (KubernetesRemediator.execute dry cluster taken action alert).out.statusOf
        = some "error" ∧
      (KubernetesRemediator.execute dry cluster taken action alert).out.messageOf
        = some ("Unknown action type: " ++ action.action_type) ∧
      (KubernetesRemediator.execute dry cluster taken action alert).calls = [] ∧
      (KubernetesRemediator.execute dry cluster taken action alert).taken = taken) := by
  refine ⟨rfl, fun action dry cluster taken alert h1 h2 h3 h4 => ?_⟩
  refine ⟨?_, ?_, ?_, ?_⟩ <;>
    simp [KubernetesRemediator.execute, beq_iff_eq, h1, h2, h3, h4,
      Outcome.statusOf, Outcome.messageOf]

/-- C7 witness: the unknown-type branch at a concrete action. -/
theorem execute_raise_and_unknown_type_witness :
    (KubernetesRemediator.execute false demoCluster []
      (RemediationAction.mk "delete_all" "pod" [] 1 "r") svcAlert).out.messageOf
      = some "Unknown action type: delete_all" :=
  (execute_raise_and_unknown_type.2
    (RemediationAction.mk "delete_all" "pod" [] 1 "r") false demoCluster [] svcAlert
    (by decide) (by decide) (by decide) (by decide)).2.1

/-- C8: the `TooFewReplicas` alert classifies to the `to_spec` scale
action, but executing it against the deployment whose live `spec.replicas`
is 2 yields `from = 2, to = 2`, not `to = 5`: the code reads
`spec_replicas` from the very field it read `current_replicas` from (its
own comment says "In real scenario, get from original spec"), so for this
action the result's `from` always equals its `to` — `{from: 2, to: 5}` is
unreachable. -/
theorem to_spec_scale_from_eq_to :
    PatternMatcher.classify tooFewAlert = some tooFewReplicasAction ∧
    (tooFewReplicasAction.paramGetD "to_spec" (Json.bool false)).truthy = true ∧
    (KubernetesRemediator.execute false demoCluster [] tooFewReplicasAction
      tooFewAlert).out.statusOf = some "success" ∧
    (KubernetesRemediator.execute false demoCluster [] tooFewReplicasAction
      tooFewAlert).out.resFromOf = some 2 ∧
    (KubernetesRemediator.execute false demoCluster [] tooFewReplicasAction
      tooFewAlert).out.resToOf = some 2 ∧
    (∀ (dry : Bool) (cluster : ClusterState) (taken : List ResultDict) (alert : Alert),
      (KubernetesRemediator.execute dry cluster taken tooFewReplicasAction
        alert).out.resFromOf
      = (KubernetesRemediator.execute dry cluster taken tooFewReplicasAction
        alert).out.resToOf) := by
  refine ⟨rfl, by decide, rfl, by decide, by decide, fun dry cluster taken alert => ?_⟩
  cases dry with
  | true =>
      simp [KubernetesRemediator.execute, scaleExec, Outcome.resFromOf, Outcome.resToOf,
        tooFewReplicasAction]
  | false =>
      cases hfd : cluster.findDeployment (pyGetD alert.labels "service" "unknown") with
      | none =>
          simp [KubernetesRemediator.execute, scaleExec, hfd, Outcome.resFromOf,
            Outcome.resToOf, tooFewReplicasAction]
      | some d =>
          simp [KubernetesRemediator.execute, scaleExec, hfd, Outcome.resFromOf,
            Outcome.resToOf, tooFewReplicasAction, RemediationAction.paramGetD,
            Json.objGetD, Json.objGet, Json.truthy]

/-- C4: every processed alert appends exactly one alert-history entry; the
action-history entry appears exactly when the gate said auto-execute AND the
executor returned — but the failing input shows the claimed iff breaks: the
reasoner reply recommending a scale with a string increment at confidence
0.9 passes the gate, `execute` raises `TypeError`, the append after the
raising call is skipped, and the alert is marked `failed` although
`should_auto_execute` returned true. -/
theorem history_invariant :
    (∀ env st alert, (processAlert env st alert).alertHistory.length
        = st.alertHistory.length + 1) ∧
    (∀ env st alert, HybridClassifier.shouldAutoExecute
        (HybridClassifier.classify env.ai alert) env.dryRun = false →
      (processAlert env st alert).actionHistory = st.actionHistory) ∧
    (∀ env st alert r, HybridClassifier.shouldAutoExecute
        (HybridClassifier.classify env.ai alert) env.dryRun = true →
      (KubernetesRemediator.execute env.dryRun env.cluster st.taken
        (HybridClassifier.classify env.ai alert) alert).out = Outcome.ok r →
      (processAlert env st alert).actionHistory = st.actionHistory ++
        [{ alertName := pyGetD alert.labels "alertname" "Unknown",
           actionType := (HybridClassifier.classify env.ai alert).action_type,
           result := r }]) ∧
    HybridClassifier.shouldAutoExecute
      (HybridClassifier.classify (AIEnv.replies rawScaleBadIncrement) svcAlert)
      false = true ∧
    (KubernetesRemediator.execute false demoCluster []
      (HybridClassifier.classify (AIEnv.replies rawScaleBadIncrement) svcAlert)
      svcAlert).out = Outcome.raised "TypeError" ∧
    (processAlert ⟨false, AIEnv.replies rawScaleBadIncrement, demoCluster⟩
      ⟨[], [], []⟩ svcAlert).actionHistory = [] ∧
    (processAlert ⟨false, AIEnv.replies rawScaleBadIncrement, demoCluster⟩
      ⟨[], [], []⟩ svcAlert).alertHistory.map AlertHistoryEntry.status = ["failed"] := by
  refine ⟨fun env st alert => ?_, fun env st alert hsa => ?_,
    fun env st alert r hsa hok => ?_, by decide, rfl, rfl, rfl⟩
  · cases hsa : HybridClassifier.shouldAutoExecute
        (HybridClassifier.classify env.ai alert) env.dryRun with
    | false => simp [processAlert, hsa]
    | true =>
        cases ho : (KubernetesRemediator.execute env.dryRun env.cluster st.taken
            (HybridClassifier.classify env.ai alert) alert).out with
        | ok r => simp [processAlert, hsa, ho]
        | raised e => simp [processAlert, hsa, ho]
  · simp [processAlert, hsa]
  · simp [processAlert, hsa, hok]

/-- C4 witness: with the reasoner unavailable and no rule match the gate
declines, and indeed no action-history entry is appended. -/
theorem history_invariant_witness :
    (processAlert ⟨false, AIEnv.unavailable, demoCluster⟩ ⟨[], [], []⟩
      unmatchedAlert).actionHistory = [] :=
  history_invariant.2.1 ⟨false, AIEnv.unavailable, demoCluster⟩ ⟨[], [], []⟩
    unmatchedAlert (by decide)

/-- C9: an alert matching no rule, with the reasoner unavailable, yields
the investigate action at confidence 0.0; it is never auto-executed, no
action-history entry is created (and the executor history is untouched),
and the alert-history entry ends `completed`. -/
theorem unmatched_unavailable_flow (alert : Alert) (dry : Bool)
    (cluster : ClusterState) (st : ProcState)
    (h : PatternMatcher.classify alert = none) :
    (HybridClassifier.classify AIEnv.unavailable alert).action_type = "investigate" ∧
    (HybridClassifier.classify AIEnv.unavailable alert).confidence = 0 ∧
    HybridClassifier.shouldAutoExecute
      (HybridClassifier.classify AIEnv.unavailable alert) dry = false ∧
    (processAlert ⟨dry, AIEnv.unavailable, cluster⟩ st alert).actionHistory
      = st.actionHistory ∧
    (processAlert ⟨dry, AIEnv.unavailable, cluster⟩ st alert).taken = st.taken ∧
    (processAlert ⟨dry, AIEnv.unavailable, cluster⟩ st alert).alertHistory
      = st.alertHistory ++
        [{ alert := alert, status := "completed", actionType := some "investigate",
           confidence := some 0, autoExecuted := some false, result := none }] := by
  have hc : HybridClassifier.classify AIEnv.unavailable alert = manualReviewAction := by
    simp [HybridClassifier.classify, h, AIEnv.isAvailable]
  have hsa : HybridClassifier.shouldAutoExecute manualReviewAction dry = false := by
    cases dry <;> simp [HybridClassifier.shouldAutoExecute, manualReviewAction]
  refine ⟨by simp [hc, manualReviewAction], by simp [hc, manualReviewAction],
    by rw [hc]; exact hsa, ?_, ?_, ?_⟩ <;>
    · simp only [processAlert, hc, hsa, Bool.false_eq_true, if_false]
      try simp [manualReviewAction]

/-- C9 witness: the flow at a concrete unmatched alert against the demo
cluster. -/
theorem unmatched_unavailable_flow_witness :
    (processAlert ⟨false, AIEnv.unavailable, demoCluster⟩ ⟨[], [], []⟩
      unmatchedAlert).actionHistory = [] ∧
    (processAlert ⟨false, AIEnv.unavailable, demoCluster⟩ ⟨[], [], []⟩
      unmatchedAlert).alertHistory.map AlertHistoryEntry.status = ["completed"] := by
  have H := unmatched_unavailable_flow unmatchedAlert false demoCluster ⟨[], [], []⟩ rfl
  exact ⟨H.2.2.2.1, by rw [H.2.2.2.2.2]; rfl⟩
